import Mathlib

/-!
# The class-code screen (`src/containers/CodeEntry.js`)

A shallow embedding of the three response handlers of the screen
(`fetchStudent`, `fetchClassroomSessionId`, `postAttendanceTransaction`) and of
`markPresent`, which chains the last two.

* A handler is a function of the JSON value that `await queryResult.json()`
  yields; what it does is recorded as the list of its effects, in order
  (requests sent, alerts shown, actions dispatched, state updates), together
  with its result or the exception that rejected its promise.
* Values follow JavaScript: `undefined` is `none`, a parsed JSON value is
  `some v`; reading a property of `null` or `undefined` and applying `in` to a
  primitive raise a `TypeError`.
* The Number type of the host is a parameter (`JsNumber`): the handlers only
  print numbers and compare them with `1`.
* A string is a sequence of Unicode characters; the patterns searched by
  `includes` are ASCII, for which that agrees with the UTF-16 view.
* A request that fails, or a body that is no JSON, rejects the promise before
  the code after the `await` runs; the handlers start from the parsed body.
-/

namespace CodeEntry

/-- Operations of the host's Number type that the screen reaches. -/
class JsNumber (N : Type) where
  /-- Text that `JSON.stringify` gives for a number. -/
  toJSON : N → String
  /-- The conversion `ToString` of a number. -/
  toStr : N → String
  /-- The conversion `StringToNumber`. -/
  ofStr : String → N
  /-- The comparison `n < 1` (false for NaN). -/
  ltOne : N → Bool

/-- A value parsed from a JSON body. The members of an object are listed in the
order in which JavaScript enumerates its own properties. -/
inductive Json (N : Type) where
  | null
  | bool (b : Bool)
  | num (n : N)
  | str (s : String)
  | arr (items : List (Json N))
  | obj (props : List (String × Json N))

/-- Exceptions that the handlers can raise. -/
inductive JsError where
  | typeError
  deriving DecidableEq, Repr

/-- The view constants of `../redux/actions/view` that the screen uses. -/
inductive View where
  | LOGIN
  deriving DecidableEq, Repr

/-- The redux actions that the screen dispatches. -/
inductive Action where
  | setView (v : View)
  | clearToken
  deriving DecidableEq, Repr

/-- The second argument of a call of `fetch`, with its URL. -/
structure Request where
  url : String
  method : String
  headers : List (String × String)
  body : Option String
  deriving DecidableEq, Repr

/-- What a handler does to the outside, one constructor per kind of call. -/
inductive Effect (N : Type) where
  | fetch (req : Request)
  | alert (title : String) (message : Option (Json N))
  | dispatch (a : Action)
  | setStudent (v : Option (Json N))

/-- The imported constant `API_URL` and the token read from the store. -/
structure Env where
  API_URL : String
  token : String

/-- A run of a handler: its effects in order, and its result or exception. -/
structure Run (N : Type) (α : Type) where
  effects : List (Effect N)
  result : Except JsError α

variable {N : Type} {α β : Type}

namespace Run

/-- A run that does nothing and returns `a`. -/
def pure (a : α) : Run N α := ⟨[], .ok a⟩

/-- Sequencing: an exception in the first part ends the run. -/
def bind (m : Run N α) (f : α → Run N β) : Run N β :=
  match m.result with
  | .error e => ⟨m.effects, .error e⟩
  | .ok a => ⟨m.effects ++ (f a).effects, (f a).result⟩

end Run

instance : Monad (Run N) where
  pure := Run.pure
  bind := Run.bind

/-- Perform one effect. -/
def emit (e : Effect N) : Run N Unit := ⟨[e], .ok ()⟩

/-- Evaluate an expression that may throw. -/
def eval (x : Except JsError α) : Run N α := ⟨[], x⟩

/-- A call of an async function whose promise is not awaited: its effects
happen, its result and its rejection are dropped. -/
def detached (m : Run N α) : Run N Unit := ⟨m.effects, .ok ()⟩

/-- Own property `key` of an object. -/
def lookup (key : String) : List (String × Json N) → Option (Json N)
  | [] => none
  | (k, v) :: rest => if k = key then some v else lookup key rest

/-- The operator `key in v`, for a key that is no array index and no member of
`Object.prototype` or `Array.prototype` (here `detail`, `non_field_errors`). -/
def hasIn (key : String) : Json N → Except JsError Bool
  | .obj props => .ok (lookup key props).isSome
  | .arr _ => .ok false
  | _ => .error .typeError

/-- The property read `v[key]` / `v.key`, for a key that no prototype defines
(here `id`, `detail`, `non_field_errors`). -/
def getProp (key : String) : Option (Json N) → Except JsError (Option (Json N))
  | none => .error .typeError
  | some .null => .error .typeError
  | some (.obj props) => .ok (lookup key props)
  | some _ => .ok none

/-- The element read `v[0]`. Of a string it is the first UTF-16 unit, given
here as the first character; the screen only reads `.id` from it. -/
def getIndex0 : Json N → Except JsError (Option (Json N))
  | .null => .error .typeError
  | .arr items => .ok items.head?
  | .obj props => .ok (lookup "0" props)
  | .str s => .ok (s.data.head?.map (fun c => .str (String.singleton c)))
  | _ => .ok none

/-- The test `v === null` on a value that may be `undefined`. -/
def isNull : Option (Json N) → Bool
  | some .null => true
  | _ => false

/-- Number of UTF-16 units of a string, its `length`. -/
def utf16Length (s : String) : Nat :=
  (s.data.map (fun c => if c.toNat < 65536 then 1 else 2)).sum

/-- The method `String.prototype.includes`, for a pattern of ASCII characters. -/
def includesChars (pat : List Char) : List Char → Bool
  | [] => pat.isEmpty
  | c :: cs => pat.isPrefixOf (c :: cs) || includesChars pat cs

/-- The call `s.includes(pat)`. -/
def includes (s pat : String) : Bool := includesChars pat.data s.data

section Number
variable [JsNumber N]

mutual
/-- The conversion `ToString` on a parsed value. An object with an own member
`toString` has no callable conversion left, which is a `TypeError`. -/
def toStr : Json N → Except JsError String
  | .null => .ok "null"
  | .bool b => .ok (if b then "true" else "false")
  | .num n => .ok (JsNumber.toStr n)
  | .str s => .ok s
  | .arr items => (joinItems items).map (String.intercalate ",")
  | .obj props =>
    if (lookup "toString" props).isSome then .error .typeError else .ok "[object Object]"
/-- The pieces that `Array.prototype.join` puts between the commas: `null`
elements give the empty string. -/
def joinItems : List (Json N) → Except JsError (List String)
  | [] => .ok []
  | x :: rest =>
    match x with
    | .null => (joinItems rest).map (fun ss => "" :: ss)
    | _ => (toStr x).bind (fun s => (joinItems rest).map (fun ss => s :: ss))
end

/-- The comparison `v < 1`: `ToPrimitive` with hint number, then `ToNumber`. -/
def valueLtOne : Json N → Except JsError Bool
  | .null => .ok true
  | .bool b => .ok (!b)
  | .num n => .ok (JsNumber.ltOne n)
  | .str s => .ok (JsNumber.ltOne (JsNumber.ofStr s : N))
  | v => (toStr v).map (fun s => JsNumber.ltOne (JsNumber.ofStr s : N))

/-- The test `queryObj.length < 1`. -/
def lengthLtOne : Json N → Except JsError Bool
  | .null => .error .typeError
  | .arr items => .ok (decide (items.length < 1))
  | .str s => .ok (decide (utf16Length s < 1))
  | .obj props =>
    match lookup "length" props with
    | none => .ok false
    | some v => valueLtOne v
  | _ => .ok false

end Number

/-- Lower-case hexadecimal digit. -/
def hexDigit (n : Nat) : Char :=
  if n < 10 then Char.ofNat (48 + n) else Char.ofNat (87 + n)

/-- How `JSON.stringify` writes one character inside a string literal. -/
def quoteChar (c : Char) : List Char :=
  if c = '"' then ['\\', '"']
  else if c = '\\' then ['\\', '\\']
  else if c.toNat = 8 then ['\\', 'b']
  else if c.toNat = 9 then ['\\', 't']
  else if c.toNat = 10 then ['\\', 'n']
  else if c.toNat = 12 then ['\\', 'f']
  else if c.toNat = 13 then ['\\', 'r']
  else if c.toNat < 32 then ['\\', 'u', '0', '0', hexDigit (c.toNat / 16), hexDigit (c.toNat % 16)]
  else [c]

/-- How `JSON.stringify` writes a string: quoted, with the escapes of JSON. -/
def quote (s : String) : String :=
  String.mk ('"' :: (s.data.flatMap quoteChar ++ ['"']))

/-- The call `message.includes(pat)` on the result of `JSON.stringify`. -/
def messageIncludes (message : Option String) (pat : String) : Except JsError Bool :=
  match message with
  | none => .error .typeError
  | some s => .ok (includes s pat)

/-- A string handed to `Alert.alert` as the message. -/
def text (s : String) : Option (Json N) := some (.str s)

/-- The headers that all three requests carry. -/
def headers (env : Env) : List (String × String) :=
  [("Content-Type", "application/json"), ("Authorization", "JWT " ++ env.token)]

/-- The request of `fetchStudent`, lines 29-36. -/
def studentRequest (env : Env) : Request :=
  ⟨env.API_URL ++ "student?is_user=True", "GET", headers env, none⟩

/-- The request of `fetchClassroomSessionId`, lines 59-66. -/
def sessionRequest (env : Env) (classCode : String) : Request :=
  ⟨env.API_URL ++ "session?class_code=" ++ classCode, "GET", headers env, none⟩

section Number
variable [JsNumber N]

mutual
/-- The function `JSON.stringify` on a parsed value (no indentation). -/
def stringify : Json N → String
  | .null => "null"
  | .bool b => if b then "true" else "false"
  | .num n => JsNumber.toJSON n
  | .str s => quote s
  | .arr items => "[" ++ String.intercalate "," (stringifyItems items) ++ "]"
  | .obj props => "\x7b" ++ String.intercalate "," (stringifyProps props) ++ "\x7d"
/-- The elements of an array, each written by `stringify`. -/
def stringifyItems : List (Json N) → List String
  | [] => []
  | x :: rest => stringify x :: stringifyItems rest
/-- The members of an object, each written as `"key":value`. -/
def stringifyProps : List (String × Json N) → List String
  | [] => []
  | (k, v) :: rest => (quote k ++ ":" ++ stringify v) :: stringifyProps rest
end

/-- The call `JSON.stringify(v)` on a value that may be `undefined`, which it
gives back as `undefined`. -/
def stringifyVal (v : Option (Json N)) : Option String := v.map stringify

/-- The call `JSON.stringify` on an object literal: a member whose value is
`undefined` is left out. -/
def stringifyLiteral (members : List (String × Option (Json N))) : String :=
  stringify (.obj (members.filterMap (fun m => m.2.map (fun v => (m.1, v)))))

/-- The request of `postAttendanceTransaction`, lines 84-95. -/
def attendanceRequest (env : Env) (sessionServerId studentServerId : Option (Json N)) : Request :=
  ⟨env.API_URL ++ "attendance", "POST", headers env,
    some (stringifyLiteral [("session", sessionServerId), ("student", studentServerId)])⟩

/-- The handler `fetchStudent`, lines 28-51; `queryObj` is the parsed body of
the response. -/
def fetchStudent (env : Env) (queryObj : Json N) : Run N Unit := do
  emit (.fetch (studentRequest env))
  if ← eval (hasIn "detail" queryObj) then
    emit (.alert "Error" (← eval (getProp "detail" (some queryObj))))
    emit (.dispatch (.setView .LOGIN))
    emit (.dispatch .clearToken)
  else if ← eval (lengthLtOne queryObj) then
    emit (.alert "Error" (text "No student found"))
    emit (.dispatch (.setView .LOGIN))
    emit (.dispatch .clearToken)
  else
    let foundStudent ← eval (getIndex0 queryObj)
    emit (.setStudent foundStudent)

/-- The handler `fetchClassroomSessionId`, lines 58-76. -/
def fetchClassroomSessionId (env : Env) (classCode : String) (queryObj : Json N) :
    Run N (Option (Json N)) := do
  emit (.fetch (sessionRequest env classCode))
  if ← eval (lengthLtOne queryObj) then
    emit (.alert "Error" (text "No classroom session with that code was found."))
    return some .null
  else
    let foundSession ← eval (getIndex0 queryObj)
    eval (getProp "id" foundSession)

/-- The handler `postAttendanceTransaction`, lines 83-114. -/
def postAttendanceTransaction (env : Env) (sessionServerId studentServerId : Option (Json N))
    (queryObj : Json N) : Run N Unit := do
  emit (.fetch (attendanceRequest env sessionServerId studentServerId))
  if ← eval (hasIn "detail" queryObj) then
    let message := stringifyVal (← eval (getProp "detail" (some queryObj)))
    emit (.alert "Error" (message.map .str))
  else if ← eval (hasIn "non_field_errors" queryObj) then
    let message := stringifyVal (← eval (getProp "non_field_errors" (some queryObj)))
    if ← eval (messageIncludes message "unique") then
      emit (.alert "Error" (text "You have already marked yourself present."))
    else if ← eval (messageIncludes message "roster") then
      emit (.alert "Error" (text "You are not on the roster for this class."))
    else emit (.alert "Error" (message.map .str))
  else emit (.alert "Success" (text "You have been marked present in this class."))

/-- The function `markPresent`, lines 117-122, with the class code and the
student record of the component state. The assignment to the undeclared
`sessionId` binds a global, as in the non-strict mode in which the bundler of
React Native compiles modules. The call of `postAttendanceTransaction` is not
awaited; its arguments are evaluated before it. -/
def markPresent (env : Env) (code : String) (student : Option (Json N))
    (sessionObj attendanceObj : Json N) : Run N Unit := do
  let sessionId ← fetchClassroomSessionId env code sessionObj
  if !isNull sessionId then
    let studentId ← eval (getProp "id" student)
    detached (postAttendanceTransaction env sessionId studentId attendanceObj)

end Number

/-- Numbers of a sample host, on which concrete runs are evaluated: the
integers and NaN. -/
inductive SampleNum where
  | nan
  | int (i : Int)

/-- Decimal text of a sample number. -/
def SampleNum.show (nanText : String) : SampleNum → String
  | .nan => nanText
  | .int i => toString i

/-- The sample host converts the integer numerals (the empty string is `0`);
every other string is NaN there. -/
def SampleNum.ofStr (s : String) : SampleNum :=
  if s.trim.isEmpty then .int 0
  else match s.trim.toInt? with
    | some i => .int i
    | none => .nan

instance : JsNumber SampleNum where
  toJSON := SampleNum.show "null"
  toStr := SampleNum.show "NaN"
  ofStr := SampleNum.ofStr
  ltOne
    | .nan => false
    | .int i => decide (i < 1)

/-- A sample environment. -/
def env0 : Env := ⟨"https://example.org/api/", "t0k3n"⟩

/-- The student record `{"id": 1, "name": "Ann"}`. -/
def ann : Json SampleNum := .obj [("id", .num (.int 1)), ("name", .str "Ann")]

/-- The body `{"detail": "Signature has expired."}` that the server sends when
it refuses the token. -/
def authFailure : Json SampleNum := .obj [("detail", .str "Signature has expired.")]

/-- The body `{"non_field_errors": ["unique together"]}`. -/
def duplicateFailure : Json SampleNum :=
  .obj [("non_field_errors", .arr [.str "unique together"])]

/-- The body `{"non_field_errors": ["not on roster"]}`. -/
def rosterFailure : Json SampleNum :=
  .obj [("non_field_errors", .arr [.str "not on roster"])]

/-- The session id `42` of the sample runs. -/
def id42 : Option (Json SampleNum) := some (.num (.int 42))

/-- The student id `1` of the sample runs. -/
def id1 : Option (Json SampleNum) := some (.num (.int 1))

/-- The session lookup result `[{"id": 42}]`. -/
def oneSession : Json SampleNum := .arr [.obj [("id", .num (.int 42))]]

/-- The session lookup result `[{"id": null}]`. -/
def sessionWithoutId : Json SampleNum := .arr [.obj [("id", .null)]]

/-- A body with both keys, `detail` and a `non_field_errors` that says "unique". -/
def detailAndUnique : Json SampleNum :=
  .obj [("detail", .str "expired"), ("non_field_errors", .arr [.str "unique together"])]

/-- A body with both keys, `detail` and a `non_field_errors` that says "roster". -/
def detailAndRoster : Json SampleNum :=
  .obj [("detail", .str "expired"), ("non_field_errors", .arr [.str "not on roster"])]

end CodeEntry

namespace CodeEntry
open Json

section Lemmas
variable {N : Type} [JsNumber N]

theorem fetchStudent_detail (env : Env) (props : List (String × Json N)) (v : Json N)
    (h : lookup "detail" props = some v) :
    fetchStudent env (obj props) =
      ⟨[.fetch (studentRequest env), .alert "Error" (some v),
        .dispatch (.setView .LOGIN), .dispatch .clearToken], .ok ()⟩ := by
  simp [fetchStudent, bind, Run.bind, emit, eval, hasIn, getProp, h]

theorem fetchStudent_empty (env : Env) :
    fetchStudent env (arr [] : Json N) =
      ⟨[.fetch (studentRequest env), .alert "Error" (text "No student found"),
        .dispatch (.setView .LOGIN), .dispatch .clearToken], .ok ()⟩ := by
  rfl

theorem session_empty (env : Env) (code : String) :
    fetchClassroomSessionId env code (arr [] : Json N) =
      ⟨[.fetch (sessionRequest env code),
        .alert "Error" (text "No classroom session with that code was found.")],
        .ok (some null)⟩ := by
  rfl

theorem session_cons (env : Env) (code : String) (x : Json N) (xs : List (Json N)) :
    fetchClassroomSessionId env code (arr (x :: xs)) =
      ⟨[.fetch (sessionRequest env code)], getProp "id" (some x)⟩ := by
  simp [fetchClassroomSessionId, bind, Run.bind, emit, eval, lengthLtOne, getIndex0]

theorem session_effects (env : Env) (code : String) (q : Json N) :
    (fetchClassroomSessionId env code q).effects = [.fetch (sessionRequest env code)] ∨
    (fetchClassroomSessionId env code q).effects = [.fetch (sessionRequest env code),
      .alert "Error" (text "No classroom session with that code was found.")] := by
  simp only [fetchClassroomSessionId, bind, Run.bind, emit, eval]
  rcases h : lengthLtOne q with e | b
  · simp
  · cases b
    · rcases h2 : getIndex0 q with e | v
      · simp
      · simp
    · simp [pure, Run.pure]

theorem post_detail (env : Env) (a b : Option (Json N)) (props : List (String × Json N))
    (v : Json N) (h : lookup "detail" props = some v) :
    postAttendanceTransaction env a b (obj props) =
      ⟨[.fetch (attendanceRequest env a b), .alert "Error" (text (stringify v))], .ok ()⟩ := by
  simp [postAttendanceTransaction, bind, Run.bind, emit, eval, hasIn, getProp, h, stringifyVal,
    text]

theorem post_validation (env : Env) (a b : Option (Json N)) (props : List (String × Json N))
    (v : Json N) (hd : lookup "detail" props = none)
    (h : lookup "non_field_errors" props = some v) :
    postAttendanceTransaction env a b (obj props) =
      ⟨[.fetch (attendanceRequest env a b),
        .alert "Error" (text (
          if includes (stringify v) "unique" then "You have already marked yourself present."
          else if includes (stringify v) "roster" then "You are not on the roster for this class."
          else stringify v))], .ok ()⟩ := by
  cases hu : includes (stringify v) "unique" <;>
    cases hr : includes (stringify v) "roster" <;>
    simp [postAttendanceTransaction, bind, Run.bind, emit, eval, hasIn, getProp, h, hd,
      stringifyVal, text, messageIncludes, hu, hr]

theorem post_success_of_none (env : Env) (a b : Option (Json N))
    (props : List (String × Json N)) (hd : lookup "detail" props = none)
    (h : lookup "non_field_errors" props = none) :
    postAttendanceTransaction env a b (obj props) =
      ⟨[.fetch (attendanceRequest env a b),
        .alert "Success" (text "You have been marked present in this class.")], .ok ()⟩ := by
  simp [postAttendanceTransaction, bind, Run.bind, emit, eval, hasIn, hd, h]

/-- Whatever the response, `postAttendanceTransaction` sends its request first
and then shows alerts only. -/
theorem post_effects (env : Env) (a b : Option (Json N)) (q : Json N) :
    ∃ rest, (postAttendanceTransaction env a b q).effects =
        .fetch (attendanceRequest env a b) :: rest ∧
      ∀ e ∈ rest, ∃ title message, e = Effect.alert title message := by
  cases q with
  | obj props =>
    rcases hd : lookup "detail" props with _ | v
    · rcases h : lookup "non_field_errors" props with _ | w
      · rw [post_success_of_none env a b props hd h]
        exact ⟨_, rfl, by simp⟩
      · rw [post_validation env a b props w hd h]
        exact ⟨_, rfl, by simp⟩
    · rw [post_detail env a b props v hd]
      exact ⟨_, rfl, by simp⟩
  | arr items =>
    exact ⟨[.alert "Success" (text "You have been marked present in this class.")], rfl,
      by simp⟩
  | null => exact ⟨[], rfl, by simp⟩
  | bool c => exact ⟨[], rfl, by simp⟩
  | num n => exact ⟨[], rfl, by simp⟩
  | str s => exact ⟨[], rfl, by simp⟩

/-- When the lookup yields a session id other than `null` and the student
state has an `id` to read, `markPresent` goes on to the attendance request. -/
theorem markPresent_of_session (env : Env) (code : String) (student : Option (Json N))
    (x : Json N) (xs : List (Json N)) (attendanceObj : Json N) (sid studentId : Option (Json N))
    (hx : getProp "id" (some x) = .ok sid) (hsid : isNull sid = false)
    (hst : getProp "id" student = .ok studentId) :
    markPresent env code student (arr (x :: xs)) attendanceObj =
      ⟨.fetch (sessionRequest env code) ::
        (postAttendanceTransaction env sid studentId attendanceObj).effects, .ok ()⟩ := by
  simp [markPresent, bind, Run.bind, session_cons, hx, hsid, hst, eval, detached]

/-- When the student state has no `id` to read, `markPresent` does nothing
beyond the session lookup. -/
theorem markPresent_effects_of_throw (env : Env) (code : String) (student : Option (Json N))
    (q attendanceObj : Json N) (e : JsError) (hst : getProp "id" student = .error e) :
    (markPresent env code student q attendanceObj).effects =
      (fetchClassroomSessionId env code q).effects := by
  simp only [markPresent, bind, Run.bind, eval, hst]
  rcases (fetchClassroomSessionId env code q).result with e | sid
  · simp
  · simp only [pure, Run.pure, List.append_nil]
    split <;> simp

end Lemmas

section Claims
variable {N : Type} [JsNumber N]

/-- C1, evaluated on the body `{"detail": "Signature has expired."}`: the
session lookup has no test for `detail`; it finds no `length` below 1, reads
element `0`, which is `undefined`, and its `.id` raises a `TypeError` before any
alert is shown. On the same body `fetchStudent` shows the alert and logs out,
and `postAttendanceTransaction` shows the alert and dispatches nothing. -/
theorem detail_on_session_lookup_throws :
    fetchClassroomSessionId env0 "ABC1" authFailure =
      ⟨[.fetch (sessionRequest env0 "ABC1")], .error .typeError⟩ ∧
    fetchStudent env0 authFailure =
      ⟨[.fetch (studentRequest env0), .alert "Error" (text "Signature has expired."),
        .dispatch (.setView .LOGIN), .dispatch .clearToken], .ok ()⟩ ∧
    postAttendanceTransaction env0 id42 id1 authFailure =
      ⟨[.fetch (attendanceRequest env0 id42 id1),
        .alert "Error" (text "\"Signature has expired.\"")], .ok ()⟩ :=
  ⟨rfl, rfl, rfl⟩

/-- C2 as stated fails: the body `detailAndUnique` has a `non_field_errors`
whose text includes "unique", yet the one alert shown is the text of `detail`,
not the duplicate-attendance message. -/
theorem detail_hides_duplicate_message :
    hasIn "non_field_errors" detailAndUnique = .ok true ∧
    (getProp "non_field_errors" (some detailAndUnique)).map stringifyVal =
      .ok (some "[\"unique together\"]") ∧
    includes "[\"unique together\"]" "unique" = true ∧
    (postAttendanceTransaction env0 id42 id1 detailAndUnique).effects =
      [.fetch (attendanceRequest env0 id42 id1), .alert "Error" (text "\"expired\"")] ∧
    Effect.alert "Error" (text "You have already marked yourself present.") ∉
      (postAttendanceTransaction env0 id42 id1 detailAndUnique).effects := by
  refine ⟨rfl, rfl, rfl, rfl, ?_⟩
  have h : (postAttendanceTransaction env0 id42 id1 detailAndUnique).effects =
      [.fetch (attendanceRequest env0 id42 id1), .alert "Error" (text "\"expired\"")] := rfl
  rw [h]
  simp [text]

/-- C2, amended: for every attendance response without a `detail` key whose
`non_field_errors` value, written by `JSON.stringify`, includes "unique",
`postAttendanceTransaction` sends its request and shows exactly the alert
('Error', 'You have already marked yourself present.'). -/
theorem post_duplicate_attendance (env : Env) (a b : Option (Json N))
    (props : List (String × Json N)) (v : Json N)
    (hd : lookup "detail" props = none) (hv : lookup "non_field_errors" props = some v)
    (hu : includes (stringify v) "unique" = true) :
    postAttendanceTransaction env a b (obj props) =
      ⟨[.fetch (attendanceRequest env a b),
        .alert "Error" (text "You have already marked yourself present.")], .ok ()⟩ := by
  rw [post_validation env a b props v hd hv, hu]
  rfl

/-- C2, amended, on the body `{"non_field_errors": ["unique together"]}`. -/
theorem post_duplicate_attendance_witness :
    lookup "detail" [("non_field_errors", (arr [str "unique together"] : Json SampleNum))] = none ∧
    includes (stringify (arr [str "unique together"] : Json SampleNum)) "unique" = true ∧
    postAttendanceTransaction env0 id42 id1 duplicateFailure =
      ⟨[.fetch (attendanceRequest env0 id42 id1),
        .alert "Error" (text "You have already marked yourself present.")], .ok ()⟩ :=
  ⟨rfl, rfl, post_duplicate_attendance env0 id42 id1 _ (arr [str "unique together"]) rfl rfl rfl⟩

/-- C3 as stated fails: the body `detailAndRoster` has a `non_field_errors`
whose text includes "roster" and not "unique", yet the one alert shown is the
text of `detail`, not the not-on-roster message. -/
theorem detail_hides_roster_message :
    hasIn "non_field_errors" detailAndRoster = .ok true ∧
    (getProp "non_field_errors" (some detailAndRoster)).map stringifyVal =
      .ok (some "[\"not on roster\"]") ∧
    includes "[\"not on roster\"]" "roster" = true ∧
    includes "[\"not on roster\"]" "unique" = false ∧
    (postAttendanceTransaction env0 id42 id1 detailAndRoster).effects =
      [.fetch (attendanceRequest env0 id42 id1), .alert "Error" (text "\"expired\"")] ∧
    Effect.alert "Error" (text "You are not on the roster for this class.") ∉
      (postAttendanceTransaction env0 id42 id1 detailAndRoster).effects := by
  refine ⟨rfl, rfl, rfl, rfl, rfl, ?_⟩
  have h : (postAttendanceTransaction env0 id42 id1 detailAndRoster).effects =
      [.fetch (attendanceRequest env0 id42 id1), .alert "Error" (text "\"expired\"")] := rfl
  rw [h]
  simp [text]

/-- C3, amended: for every attendance response without a `detail` key whose
`non_field_errors` value, written by `JSON.stringify`, includes "roster" and
does not include "unique", `postAttendanceTransaction` sends its request and
shows exactly the alert ('Error', 'You are not on the roster for this class.'). -/
theorem post_not_on_roster (env : Env) (a b : Option (Json N))
    (props : List (String × Json N)) (v : Json N)
    (hd : lookup "detail" props = none) (hv : lookup "non_field_errors" props = some v)
    (hu : includes (stringify v) "unique" = false)
    (hr : includes (stringify v) "roster" = true) :
    postAttendanceTransaction env a b (obj props) =
      ⟨[.fetch (attendanceRequest env a b),
        .alert "Error" (text "You are not on the roster for this class.")], .ok ()⟩ := by
  rw [post_validation env a b props v hd hv, hu, hr]
  rfl

/-- C3, amended, on the body `{"non_field_errors": ["not on roster"]}`. -/
theorem post_not_on_roster_witness :
    includes (stringify (arr [str "not on roster"] : Json SampleNum)) "unique" = false ∧
    includes (stringify (arr [str "not on roster"] : Json SampleNum)) "roster" = true ∧
    postAttendanceTransaction env0 id42 id1 rosterFailure =
      ⟨[.fetch (attendanceRequest env0 id42 id1),
        .alert "Error" (text "You are not on the roster for this class.")], .ok ()⟩ :=
  ⟨rfl, rfl, post_not_on_roster env0 id42 id1 _ (arr [str "not on roster"]) rfl rfl rfl rfl⟩

/-- C4: for every class code, on the empty array the session lookup shows the
alert ('Error', 'No classroom session with that code was found.') and returns
`null`; `markPresent` then ends with the lookup request and that alert as its
only effects, whatever the student state: no attendance request, no further
alert. -/
theorem empty_session_lookup_stops_markPresent (env : Env) (code : String)
    (student : Option (Json N)) (attendanceObj : Json N) :
    fetchClassroomSessionId env code (arr [] : Json N) =
      ⟨[.fetch (sessionRequest env code),
        .alert "Error" (text "No classroom session with that code was found.")],
        .ok (some null)⟩ ∧
    markPresent env code student (arr []) attendanceObj =
      ⟨[.fetch (sessionRequest env code),
        .alert "Error" (text "No classroom session with that code was found.")],
        .ok ()⟩ :=
  ⟨rfl, rfl⟩

/-- C5: on every non-empty array `fetchStudent` sends its request and calls
`setStudent` with the first element, and does nothing else: no alert, no
dispatch. -/
theorem fetchStudent_sets_first_element (env : Env) (x : Json N) (xs : List (Json N)) :
    fetchStudent env (arr (x :: xs)) =
      ⟨[.fetch (studentRequest env), .setStudent (some x)], .ok ()⟩ :=
  rfl

/-- C6: on every response object with neither a `detail` nor a
`non_field_errors` key, `postAttendanceTransaction` sends its request and shows
exactly the alert ('Success', 'You have been marked present in this class.'). -/
theorem post_success (env : Env) (a b : Option (Json N)) (props : List (String × Json N))
    (hd : lookup "detail" props = none) (hv : lookup "non_field_errors" props = none) :
    postAttendanceTransaction env a b (obj props) =
      ⟨[.fetch (attendanceRequest env a b),
        .alert "Success" (text "You have been marked present in this class.")], .ok ()⟩ :=
  post_success_of_none env a b props hd hv

/-- C6 on the body `{}`. -/
theorem post_success_witness :
    postAttendanceTransaction env0 id42 id1 (obj []) =
      ⟨[.fetch (attendanceRequest env0 id42 id1),
        .alert "Success" (text "You have been marked present in this class.")], .ok ()⟩ :=
  post_success env0 id42 id1 [] rfl rfl

/-- C7: in every run of `markPresent`, whatever the session lookup and the
attendance call return, a request with method POST is among the effects only
when the student state holds a value other than `null`. -/
theorem attendance_post_needs_student (env : Env) (code : String) (student : Option (Json N))
    (sessionObj attendanceObj : Json N) (req : Request)
    (hmem : Effect.fetch req ∈ (markPresent env code student sessionObj attendanceObj).effects)
    (hpost : req.method = "POST") :
    ∃ v, student = some v ∧ v ≠ null := by
  have hthrow : ∀ e, getProp "id" student = .error e → False := by
    intro e he
    rw [markPresent_effects_of_throw env code student sessionObj attendanceObj e he] at hmem
    rcases session_effects env code sessionObj with h | h <;> rw [h] at hmem <;>
      simp at hmem <;> subst hmem <;> simp [sessionRequest] at hpost
  match student with
  | none => exact (hthrow _ rfl).elim
  | some v =>
    refine ⟨v, rfl, ?_⟩
    rintro rfl
    exact hthrow _ rfl

/-- C7 on a run that reaches the attendance request: the student is `ann`. -/
theorem attendance_post_needs_student_witness :
    Effect.fetch (attendanceRequest env0 id42 id1) ∈
      (markPresent env0 "ABC1" (some ann) oneSession (obj [])).effects ∧
    (attendanceRequest env0 id42 id1).method = "POST" ∧
    ∃ v, some ann = some v ∧ v ≠ null :=
  ⟨.tail _ (.head _), rfl,
    attendance_post_needs_student env0 "ABC1" (some ann) oneSession (obj [])
      (attendanceRequest env0 id42 id1) (.tail _ (.head _)) rfl⟩

/-- C8 as stated fails: the empty student collection is one of the other error
cases, and on it `fetchStudent` dispatches `setView(LOGIN)` and `clearToken()`
after its alert. -/
theorem empty_student_collection_logs_out :
    fetchStudent env0 (arr [] : Json SampleNum) =
      ⟨[.fetch (studentRequest env0), .alert "Error" (text "No student found"),
        .dispatch (.setView .LOGIN), .dispatch .clearToken], .ok ()⟩ ∧
    Effect.dispatch (.setView .LOGIN) ∈ (fetchStudent env0 (arr [] : Json SampleNum)).effects ∧
    Effect.dispatch .clearToken ∈ (fetchStudent env0 (arr [] : Json SampleNum)).effects :=
  ⟨rfl, .tail _ (.tail _ (.head _)), .tail _ (.tail _ (.tail _ (.head _)))⟩

/-- C8, amended: outside the student fetch every error case only notifies. On
the empty session collection, and on every attendance response with a `detail`
or a `non_field_errors` key, the handler sends its request and shows one 'Error'
alert, and that is all it does: no dispatch, no state update. -/
theorem other_errors_only_alert (env : Env) (code : String) (a b : Option (Json N))
    (props : List (String × Json N))
    (h : (lookup "detail" props).isSome ∨ (lookup "non_field_errors" props).isSome) :
    fetchClassroomSessionId env code (arr [] : Json N) =
      ⟨[.fetch (sessionRequest env code),
        .alert "Error" (text "No classroom session with that code was found.")],
        .ok (some null)⟩ ∧
    ∃ message, postAttendanceTransaction env a b (obj props) =
      ⟨[.fetch (attendanceRequest env a b), .alert "Error" message], .ok ()⟩ := by
  refine ⟨rfl, ?_⟩
  rcases hd : lookup "detail" props with _ | v
  · rcases hv : lookup "non_field_errors" props with _ | w
    · simp [hd, hv] at h
    · exact ⟨_, post_validation env a b props w hd hv⟩
  · exact ⟨_, post_detail env a b props v hd⟩

/-- C8, amended, on the body `{"non_field_errors": ["not on roster"]}`. -/
theorem other_errors_only_alert_witness :
    fetchClassroomSessionId env0 "ABC1" (arr [] : Json SampleNum) =
      ⟨[.fetch (sessionRequest env0 "ABC1"),
        .alert "Error" (text "No classroom session with that code was found.")],
        .ok (some null)⟩ ∧
    ∃ message, postAttendanceTransaction env0 id42 id1 rosterFailure =
      ⟨[.fetch (attendanceRequest env0 id42 id1), .alert "Error" message], .ok ()⟩ :=
  other_errors_only_alert env0 "ABC1" id42 id1 _ (Or.inr rfl)

/-- C9: on every response with a `detail` key and on the empty array,
`fetchStudent` sends its request, shows one 'Error' alert, dispatches
`setView(LOGIN)` and then `clearToken()`, and never calls `setStudent`; the two
runs differ in the message of the alert only (the value of `detail`, or
'No student found'). -/
theorem fetchStudent_failures_log_out (env : Env) (props : List (String × Json N))
    (detail : Json N) (h : lookup "detail" props = some detail) :
    fetchStudent env (obj props) =
      ⟨[.fetch (studentRequest env), .alert "Error" (some detail),
        .dispatch (.setView .LOGIN), .dispatch .clearToken], .ok ()⟩ ∧
    fetchStudent env (arr [] : Json N) =
      ⟨[.fetch (studentRequest env), .alert "Error" (text "No student found"),
        .dispatch (.setView .LOGIN), .dispatch .clearToken], .ok ()⟩ :=
  ⟨fetchStudent_detail env props detail h, rfl⟩

/-- C9 on the body `{"detail": "Signature has expired."}`. -/
theorem fetchStudent_failures_log_out_witness :
    fetchStudent env0 authFailure =
      ⟨[.fetch (studentRequest env0), .alert "Error" (text "Signature has expired."),
        .dispatch (.setView .LOGIN), .dispatch .clearToken], .ok ()⟩ ∧
    fetchStudent env0 (arr [] : Json SampleNum) =
      ⟨[.fetch (studentRequest env0), .alert "Error" (text "No student found"),
        .dispatch (.setView .LOGIN), .dispatch .clearToken], .ok ()⟩ :=
  fetchStudent_failures_log_out env0 _ (str "Signature has expired.") rfl

/-- C10 as stated fails: the student is `ann` and the lookup result
`[{"id": null}]` is a non-empty array, yet `markPresent` takes the `null` id for
the not-found value and sends no attendance request at all. -/
theorem null_session_id_sends_nothing :
    markPresent env0 "ABC1" (some ann) sessionWithoutId (obj []) =
      ⟨[.fetch (sessionRequest env0 "ABC1")], .ok ()⟩ ∧
    ¬ ∃ req, Effect.fetch req ∈
        (markPresent env0 "ABC1" (some ann) sessionWithoutId (obj [])).effects ∧
      req.method = "POST" := by
  have h : markPresent env0 "ABC1" (some ann) sessionWithoutId (obj []) =
      ⟨[.fetch (sessionRequest env0 "ABC1")], .ok ()⟩ := rfl
  refine ⟨h, ?_⟩
  rw [h]
  rintro ⟨req, hmem, hpost⟩
  simp at hmem
  subst hmem
  simp [sessionRequest] at hpost

/-- C10, amended: for every student record other than `null` and every lookup
result that is a non-empty array whose first element is not `null` and does not
have the id `null`, `markPresent` sends the lookup request, then exactly one
attendance POST, and after it shows alerts only. The body of the POST is
`JSON.stringify` of `{session, student}` with the id of the first element and
the id of the student record (an id that is `undefined` is left out of the
text); later elements of the lookup result do not occur in it. -/
theorem markPresent_posts_first_session (env : Env) (code : String) (student x : Json N)
    (xs : List (Json N)) (attendanceObj : Json N) (sessionId : Option (Json N))
    (hstudent : student ≠ null) (hx : getProp "id" (some x) = .ok sessionId)
    (hid : isNull sessionId = false) :
    ∃ studentId rest,
      getProp "id" (some student) = .ok studentId ∧
      markPresent env code (some student) (arr (x :: xs)) attendanceObj =
        ⟨.fetch (sessionRequest env code) ::
          .fetch ⟨env.API_URL ++ "attendance", "POST", headers env,
            some (stringifyLiteral [("session", sessionId), ("student", studentId)])⟩ :: rest,
          .ok ()⟩ ∧
      ∀ e ∈ rest, ∃ title message, e = Effect.alert title message := by
  obtain ⟨studentId, hst⟩ : ∃ studentId, getProp "id" (some student) = .ok studentId := by
    cases student with
    | null => exact absurd rfl hstudent
    | obj props => exact ⟨_, rfl⟩
    | bool c => exact ⟨_, rfl⟩
    | num n => exact ⟨_, rfl⟩
    | str t => exact ⟨_, rfl⟩
    | arr items => exact ⟨_, rfl⟩
  obtain ⟨rest, hrest, halerts⟩ := post_effects env sessionId studentId attendanceObj
  refine ⟨studentId, rest, hst, ?_, halerts⟩
  rw [markPresent_of_session env code (some student) x xs attendanceObj sessionId studentId
    hx hid hst, hrest]
  rfl

/-- C10, amended, on the student `ann` and the lookup result `[{"id": 42}]`:
the body of the POST is `{"session":42,"student":1}`. -/
theorem markPresent_posts_first_session_witness :
    stringifyLiteral [("session", id42), ("student", id1)] = "\x7b\"session\":42,\"student\":1\x7d" ∧
    ∃ studentId rest,
      getProp "id" (some ann) = .ok studentId ∧
      markPresent env0 "ABC1" (some ann) oneSession (obj []) =
        ⟨.fetch (sessionRequest env0 "ABC1") ::
          .fetch ⟨env0.API_URL ++ "attendance", "POST", headers env0,
            some (stringifyLiteral [("session", id42), ("student", studentId)])⟩ :: rest,
          .ok ()⟩ ∧
      ∀ e ∈ rest, ∃ title message, e = Effect.alert title message :=
  ⟨rfl, markPresent_posts_first_session env0 "ABC1" ann _ [] (obj []) id42
    (by intro h; cases h) rfl rfl⟩

end Claims

end CodeEntry
